import Mathlib

/-!
Verification of the visa-status aggregation and caching layer of the
absher-visa-agent repository.

The embedding models:
* the durable JSON file caches of `src/server/visaCache.ts`
  (`read`/`write`, `getCachedVisaInfo`/`setCachedVisaInfo`,
  `getCachedVisaMap`/`setCachedVisaMap`),
* the provider-facing logic of `src/server/routes.ts`
  (`COLOR_STATUS`, `buildCountries`, `getVisaMap`, the
  `GET /api/visa-info/:destinationCode` handler, the
  `GET /api/countries` handler and the static `mockCountries` fallback of
  `src/server/storage.ts`),
* the country-code translation tables of
  `src/client/src/components/CountryCard.tsx` (`ISO2_TO_ISO3`,
  `ISO3_TO_ISO2`, `RAW_NUMERIC_TO_ISO3`, `NUMERIC_TO_ISO3`) and the
  geography-id resolution of the `WorldMap` render path.

JavaScript strings subjected to case conversion, trimming and splitting are
modelled as lists of Unicode code points (`CodeStr`); timestamps
(`Date.now()` values) are modelled as integers counting milliseconds.
A persisted JSON artifact is modelled as a `FileContent`: absent, present
but unparseable, or present and parsed.
-/

set_option maxRecDepth 4096

namespace AbsherVisa

/-- The domain visa status, `VisaStatus` of `src/shared/schema.ts`. -/
inductive VisaStatus where
  | visa_required
  | e_visa
  | visa_free
  | not_allowed
deriving DecidableEq, Repr

/-- A JavaScript string viewed as its list of Unicode code points. -/
abbrev CodeStr := List Nat

/-- Code points of a Lean string literal, used to transcribe JS literals. -/
def strCodes (s : String) : CodeStr := s.data.map Char.toNat

/-- Model of `String.prototype.toUpperCase` on one code point (ASCII range, the range
exercised by country codes). -/
def upC (n : Nat) : Nat := if 97 ≤ n ∧ n ≤ 122 then n - 32 else n

/-- Model of `String.prototype.toLowerCase` on one code point (ASCII range). -/
def lowC (n : Nat) : Nat := if 65 ≤ n ∧ n ≤ 90 then n + 32 else n

/-- Model of `codes.toUpperCase()`. -/
def toUpperS (s : CodeStr) : CodeStr := s.map upC

/-- Model of `codes.toLowerCase()`. -/
def toLowerS (s : CodeStr) : CodeStr := s.map lowC

/-- Whitespace recognised by `String.prototype.trim` (the ASCII part). -/
def isSpaceCp (n : Nat) : Bool := n == 32 || n == 9 || n == 10 || n == 13

/-- Model of `code.trim()`. -/
def trimS (s : CodeStr) : CodeStr :=
  ((s.dropWhile isSpaceCp).reverse.dropWhile isSpaceCp).reverse

/-- Model of `codes.split(",")`: split at every comma (code point 44); the empty
string splits to one empty field, as in JavaScript. -/
def splitComma (s : CodeStr) : List CodeStr :=
  s.foldr
    (fun n acc =>
      if n = 44 then [] :: acc
      else
        match acc with
        | h :: t => (n :: h) :: t
        | [] => [[n]])
    [[]]

/-! ### The durable cache store (`src/server/visaCache.ts`) -/

/-- A cache entry `{ data, timestamp }` as persisted by the cache layer. -/
structure CacheEntry (α : Type) where
  data : α
  timestamp : Int
deriving DecidableEq, Repr

/-- TTLs in milliseconds: 24 h for visa checks. -/
def TTLcheck : Int := 24 * 60 * 60 * 1000

/-- TTLs in milliseconds: 7 days for the map. -/
def TTLmap : Int := 7 * 24 * 60 * 60 * 1000

/-- A persisted JSON artifact: `none` if the file does not exist,
`some (Except.error ())` if its contents fail to parse, and
`some (Except.ok v)` if they parse to `v`. -/
abbrev FileContent (β : Type) := Option (Except Unit β)

/-- Function `read` of `visaCache.ts`: returns the parsed contents, and `null` when
the file is absent or parsing throws (the `try`/`catch` swallows the
exception). -/
def fileRead {β : Type} (file : FileContent β) : Option β :=
  match file with
  | some (Except.ok v) => some v
  | _ => none

/-- Function `write` of `visaCache.ts`: serialises `v`; a later `read` parses it
back. -/
def fileWrite {β : Type} (v : β) : FileContent β :=
  some (Except.ok v)

/-- A parsed check-cache object: association of string keys to entries.
JavaScript object key lookup with later assignments overriding earlier
ones is modelled by a last-match-wins scan. -/
abbrev Store (α : Type) := List (String × CacheEntry α)

/-- JavaScript object property lookup `m[k]`; the last binding of a key
wins. -/
def lookupObj {β : Type} (m : List (String × β)) (k : String) : Option β :=
  m.foldl (fun acc p => if p.1 = k then some p.2 else acc) none

/-- JavaScript object property assignment `m[k] = v`: replaces an existing
binding in place, otherwise appends. -/
def objSet {β : Type} (m : List (String × β)) (k : String) (v : β) :
    List (String × β) :=
  if m.any (fun p => p.1 = k) then
    m.map (fun p => if p.1 = k then (k, v) else p)
  else m ++ [(k, v)]

/-- Model of `String.prototype.toUpperCase` on one character (ASCII range, the
range exercised by country codes). -/
def upChar (c : Char) : Char :=
  if 97 ≤ c.toNat ∧ c.toNat ≤ 122 then Char.ofNat (c.toNat - 32) else c

/-- Model of `s.toUpperCase()` on a string key. -/
def toUpperStr (s : String) : String := ⟨s.data.map upChar⟩

/-- The cache key `` `${passport}-${dest}`.toUpperCase() ``. -/
def cacheKey (passport dest : String) : String :=
  toUpperStr (passport ++ "-" ++ dest)

/-- Function `getCachedVisaInfo` of `visaCache.ts`: read the check-cache file
(defaulting to the empty object), look up the uppercased
`passport-dest` key, and return the entry's data iff it is younger than
the 24 h TTL. -/
def getCachedVisaInfo {α : Type} (passport dest : String)
    (file : FileContent (Store α)) (now : Int) : Option α :=
  let cache := (fileRead file).getD []
  let key := cacheKey passport dest
  match lookupObj cache key with
  | some entry =>
      if now - entry.timestamp < TTLcheck then some entry.data else none
  | none => none

/-- Function `setCachedVisaInfo` of `visaCache.ts`: read the check-cache file
(defaulting to the empty object), assign the entry under the uppercased
key with the current timestamp, and write the file back. -/
def setCachedVisaInfo {α : Type} (passport dest : String) (data : α)
    (file : FileContent (Store α)) (now : Int) : FileContent (Store α) :=
  let cache := (fileRead file).getD []
  let key := cacheKey passport dest
  fileWrite (objSet cache key ⟨data, now⟩)

/-- Function `getCachedVisaMap` of `visaCache.ts`: read the singleton map-cache file
and return its data iff it is younger than the 7-day TTL. -/
def getCachedVisaMap {μ : Type} (file : FileContent (CacheEntry μ))
    (now : Int) : Option μ :=
  match fileRead file with
  | some entry =>
      if now - entry.timestamp < TTLmap then some entry.data else none
  | none => none

/-- Function `setCachedVisaMap` of `visaCache.ts`: overwrite the singleton map-cache
file with `{ data, timestamp: Date.now() }`. -/
def setCachedVisaMap {μ : Type} (data : μ) (now : Int) :
    FileContent (CacheEntry μ) :=
  fileWrite ⟨data, now⟩

/-! ### Provider calls and route handlers (`src/server/routes.ts`) -/

/-- The outcome of one `fetch` to the provider: a successful response
carrying parsed data, a non-success HTTP status, or a thrown transport
error. -/
inductive FetchOutcome (α : Type) where
  | ok (data : α)
  | httpError (status : Nat)
  | transportError
deriving DecidableEq, Repr

/-- A fetch outcome that is not a success. -/
def FetchOutcome.isFailure {α : Type} : FetchOutcome α → Bool
  | .ok _ => false
  | .httpError _ => true
  | .transportError => true

/-- The provider's visa-map payload, `VisaMapData` of `visaCache.ts`:
`data.colors` maps a color name to a comma-separated string of alpha-2
codes (the `passport` and `meta` fields play no role in the modelled
logic). -/
structure VisaMapData where
  colors : List (String × CodeStr)
deriving DecidableEq, Repr

/-- Constant `PASSPORT_COUNTRY` of `routes.ts`. -/
def PASSPORT_COUNTRY : String := "SA"

/-- Table `COLOR_STATUS` of `routes.ts`: the fixed color-to-status table. -/
def COLOR_STATUS (color : String) : Option VisaStatus :=
  if color = "green" then some .visa_free
  else if color = "blue" then some .e_visa
  else if color = "yellow" then some .e_visa
  else if color = "red" then some .visa_required
  else none

/-- Constant `EXCLUDED` of `buildCountries`: Saudi Arabia (self) and Israel. -/
def EXCLUDED : List CodeStr := [strCodes "SA", strCodes "IL"]

/-- A domain `Country` (`src/shared/schema.ts`), string fields as code
point lists. -/
structure Country where
  id : CodeStr
  name : CodeStr
  nameAr : CodeStr
  flag : CodeStr
  visaStatus : VisaStatus
deriving DecidableEq, Repr

/-- The loop body of `buildCountries`: the entries pushed for one
`(color, codes)` bucket.  An empty `codes` string is falsy and skipped
(`if (!codes) continue`); each comma field is trimmed and uppercased;
excluded codes are skipped; `countries.getName` (the external i18n
library) is a parameter, with the code itself as English fallback and
the English name as Arabic fallback, exactly as in the source.
The `result.push({...})` record for one admitted code: -/
def bucketEntry (getNameEn getNameAr : CodeStr → Option CodeStr)
    (color : String) (upperCode : CodeStr) : Country :=
  let name := (getNameEn upperCode).getD upperCode
  let nameAr := (getNameAr upperCode).getD name
  { id := toLowerS upperCode
    name := name
    nameAr := nameAr
    flag := []
    visaStatus := (COLOR_STATUS color).getD .visa_required }

def buildBucket (getNameEn getNameAr : CodeStr → Option CodeStr)
    (color : String) (codes : CodeStr) : List Country :=
  if codes = [] then []
  else
    (splitComma codes).filterMap (fun code =>
      let upperCode := toUpperS (trimS code)
      if upperCode ∈ EXCLUDED then none
      else some (bucketEntry getNameEn getNameAr color upperCode))

/-- Function `buildCountries` of `routes.ts`: aggregate every color bucket of the
visa map and sort by Arabic name; the locale comparator
(`localeCompare(…, "ar")`) is a parameter `le`. -/
def buildCountries (getNameEn getNameAr : CodeStr → Option CodeStr)
    (le : Country → Country → Bool) (visaMap : VisaMapData) : List Country :=
  (visaMap.colors.flatMap fun p => buildBucket getNameEn getNameAr p.1 p.2
    ).mergeSort le

deriving instance DecidableEq for Except

/-- The result of one `getVisaMap` call: the value returned, the map-cache
file afterwards, whether a network request was issued, and the
`console` messages emitted on the paths that distinguish failure
modes. -/
structure MapFetchResult where
  result : Option VisaMapData
  file : FileContent (CacheEntry VisaMapData)
  networkCalled : Bool
  log : List String
deriving DecidableEq, Repr

/-- Function `getVisaMap` of `routes.ts`: serve a fresh cache entry if present;
otherwise fail fast when no API key is configured (no network call);
otherwise fetch, and only on a successful response write the cache.
Non-success statuses and thrown transport errors both yield `none` and
leave the file untouched. -/
def getVisaMap (apiKey : String) (fetch : FetchOutcome VisaMapData)
    (file : FileContent (CacheEntry VisaMapData)) (now : Int) :
    MapFetchResult :=
  match getCachedVisaMap file now with
  | some cached => ⟨some cached, file, false, []⟩
  | none =>
    if apiKey = "" then ⟨none, file, false, ["[VisaMap] No API key"]⟩
    else
      match fetch with
      | .ok data =>
          ⟨some data, setCachedVisaMap data now, true,
            ["[VisaMap] Fetching from API..."]⟩
      | .httpError status =>
          ⟨none, file, true,
            ["[VisaMap] Fetching from API...",
             "[VisaMap] Error " ++ toString status]⟩
      | .transportError =>
          ⟨none, file, true,
            ["[VisaMap] Fetching from API...", "[VisaMap] Fetch error:"]⟩

/-- An HTTP response as produced by the handlers: a status code and either
an error-object body (its `error` string) or a data body. -/
structure HttpResponse (α : Type) where
  status : Nat
  body : Except String α
deriving DecidableEq, Repr

/-- The result of one `GET /api/visa-info/:destinationCode` request: the
response, the check-cache file afterwards, and whether a network request
was issued. -/
structure InfoResult (α : Type) where
  response : HttpResponse α
  file : FileContent (Store α)
  networkCalled : Bool
deriving DecidableEq, Repr

/-- The `GET /api/visa-info/:destinationCode` handler of `routes.ts`:
uppercase the destination, serve a fresh cache entry if present, answer
500 "API key not configured" when no key is set (before any network
call), propagate a non-success provider status as
"Failed to fetch visa info", turn a thrown transport error into 500
"Failed to fetch visa information", and cache only successful
payloads. -/
def visaInfoHandler {α : Type} (destParam : String) (apiKey : String)
    (fetch : FetchOutcome α) (file : FileContent (Store α)) (now : Int) :
    InfoResult α :=
  let dest := toUpperStr destParam
  match getCachedVisaInfo PASSPORT_COUNTRY dest file now with
  | some cached => ⟨⟨200, .ok cached⟩, file, false⟩
  | none =>
    if apiKey = "" then
      ⟨⟨500, .error "API key not configured"⟩, file, false⟩
    else
      match fetch with
      | .ok data =>
          ⟨⟨200, .ok data⟩,
            setCachedVisaInfo PASSPORT_COUNTRY dest data file now, true⟩
      | .httpError status =>
          ⟨⟨status, .error "Failed to fetch visa info"⟩, file, true⟩
      | .transportError =>
          ⟨⟨500, .error "Failed to fetch visa information"⟩, file, true⟩

/-! ### The static fallback list (`src/server/storage.ts`) -/

/-- Constant `mockCountries` of `storage.ts`, the static fallback returned by
`storage.getCountries()`. -/
def mockCountries : List Country :=
  [ ⟨strCodes "fr", strCodes "France", strCodes "فرنسا", strCodes "🇫🇷",
      .visa_required⟩,
    ⟨strCodes "de", strCodes "Germany", strCodes "ألمانيا", strCodes "🇩🇪",
      .visa_required⟩,
    ⟨strCodes "gb", strCodes "United Kingdom", strCodes "المملكة المتحدة",
      strCodes "🇬🇧", .visa_required⟩,
    ⟨strCodes "us", strCodes "United States", strCodes "الولايات المتحدة",
      strCodes "🇺🇸", .visa_required⟩,
    ⟨strCodes "tr", strCodes "Turkey", strCodes "تركيا", strCodes "🇹🇷",
      .e_visa⟩,
    ⟨strCodes "ae", strCodes "United Arab Emirates",
      strCodes "الإمارات العربية المتحدة", strCodes "🇦🇪", .visa_free⟩,
    ⟨strCodes "bh", strCodes "Bahrain", strCodes "البحرين", strCodes "🇧🇭",
      .visa_free⟩,
    ⟨strCodes "eg", strCodes "Egypt", strCodes "مصر", strCodes "🇪🇬",
      .e_visa⟩,
    ⟨strCodes "jp", strCodes "Japan", strCodes "اليابان", strCodes "🇯🇵",
      .visa_required⟩,
    ⟨strCodes "my", strCodes "Malaysia", strCodes "ماليزيا", strCodes "🇲🇾",
      .visa_free⟩,
    ⟨strCodes "in", strCodes "India", strCodes "الهند", strCodes "🇮🇳",
      .e_visa⟩,
    ⟨strCodes "th", strCodes "Thailand", strCodes "تايلاند", strCodes "🇹🇭",
      .visa_free⟩,
    ⟨strCodes "es", strCodes "Spain", strCodes "إسبانيا", strCodes "🇪🇸",
      .visa_required⟩,
    ⟨strCodes "it", strCodes "Italy", strCodes "إيطاليا", strCodes "🇮🇹",
      .visa_required⟩,
    ⟨strCodes "il", strCodes "Israel", strCodes "إسرائيل", strCodes "🇮🇱",
      .not_allowed⟩ ]

/-- The `GET /api/countries` handler of `routes.ts`: build the list from
the visa map when `getVisaMap` yields one, otherwise fall back to the
static mock list; both paths answer 200. -/
def countriesHandler (getNameEn getNameAr : CodeStr → Option CodeStr)
    (le : Country → Country → Bool) (apiKey : String)
    (fetch : FetchOutcome VisaMapData)
    (file : FileContent (CacheEntry VisaMapData)) (now : Int) :
    HttpResponse (List Country) :=
  match (getVisaMap apiKey fetch file now).result with
  | some visaMap => ⟨200, .ok (buildCountries getNameEn getNameAr le visaMap)⟩
  | none => ⟨200, .ok mockCountries⟩

/-! ### Country-code translation tables (`src/client/src/components/CountryCard.tsx`) -/

/-- Table `ISO2_TO_ISO3`: the hand-maintained alpha-2 to alpha-3 object literal,
in source order (object lookup is last-binding-wins, keys are unique in
the source). -/
def ISO2_TO_ISO3 : List (String × String) :=
  [ ("AF", "AFG"), ("AL", "ALB"), ("DZ", "DZA"), ("AD", "AND"), ("AO", 
    "AGO"), ("AG", "ATG"), ("AR", "ARG"), ("AM", "ARM"), ("AU", "AUS"), 
    ("AT", "AUT"), ("AZ", "AZE"), ("BS", "BHS"), ("BH", "BHR"), ("BD", 
    "BGD"), ("BB", "BRB"), ("BY", "BLR"), ("BE", "BEL"), ("BZ", "BLZ"), 
    ("BJ", "BEN"), ("BT", "BTN"), ("BO", "BOL"), ("BA", "BIH"), ("BW", 
    "BWA"), ("BR", "BRA"), ("BN", "BRN"), ("BG", "BGR"), ("BF", "BFA"), 
    ("BI", "BDI"), ("KH", "KHM"), ("CM", "CMR"), ("CA", "CAN"), ("CV", 
    "CPV"), ("CF", "CAF"), ("TD", "TCD"), ("CL", "CHL"), ("CN", "CHN"), 
    ("CO", "COL"), ("KM", "COM"), ("CG", "COG"), ("CD", "COD"), ("CR", 
    "CRI"), ("CI", "CIV"), ("HR", "HRV"), ("CU", "CUB"), ("CY", "CYP"), 
    ("CZ", "CZE"), ("DK", "DNK"), ("DJ", "DJI"), ("DM", "DMA"), ("DO", 
    "DOM"), ("EC", "ECU"), ("EG", "EGY"), ("SV", "SLV"), ("GQ", "GNQ"), 
    ("ER", "ERI"), ("EE", "EST"), ("ET", "ETH"), ("FJ", "FJI"), ("FI", 
    "FIN"), ("FR", "FRA"), ("GA", "GAB"), ("GM", "GMB"), ("GE", "GEO"), 
    ("DE", "DEU"), ("GH", "GHA"), ("GR", "GRC"), ("GD", "GRD"), ("GT", 
    "GTM"), ("GN", "GIN"), ("GW", "GNB"), ("GY", "GUY"), ("HT", "HTI"), 
    ("HN", "HND"), ("HU", "HUN"), ("IS", "ISL"), ("IN", "IND"), ("ID", 
    "IDN"), ("IR", "IRN"), ("IQ", "IRQ"), ("IE", "IRL"), ("IL", "ISR"), 
    ("IT", "ITA"), ("JM", "JAM"), ("JP", "JPN"), ("JO", "JOR"), ("KZ", 
    "KAZ"), ("KE", "KEN"), ("KI", "KIR"), ("KP", "PRK"), ("KR", "KOR"), 
    ("KW", "KWT"), ("KG", "KGZ"), ("LA", "LAO"), ("LV", "LVA"), ("LB", 
    "LBN"), ("LS", "LSO"), ("LR", "LBR"), ("LY", "LBY"), ("LI", "LIE"), 
    ("LT", "LTU"), ("LU", "LUX"), ("MK", "MKD"), ("MG", "MDG"), ("MW", 
    "MWI"), ("MY", "MYS"), ("MV", "MDV"), ("ML", "MLI"), ("MT", "MLT"), 
    ("MH", "MHL"), ("MR", "MRT"), ("MU", "MUS"), ("MX", "MEX"), ("FM", 
    "FSM"), ("MD", "MDA"), ("MC", "MCO"), ("MN", "MNG"), ("ME", "MNE"), 
    ("MA", "MAR"), ("MZ", "MOZ"), ("MM", "MMR"), ("NA", "NAM"), ("NR", 
    "NRU"), ("NP", "NPL"), ("NL", "NLD"), ("NZ", "NZL"), ("NI", "NIC"), 
    ("NE", "NER"), ("NG", "NGA"), ("NO", "NOR"), ("OM", "OMN"), ("PK", 
    "PAK"), ("PW", "PLW"), ("PA", "PAN"), ("PG", "PNG"), ("PY", "PRY"), 
    ("PE", "PER"), ("PH", "PHL"), ("PL", "POL"), ("PT", "PRT"), ("QA", 
    "QAT"), ("RO", "ROU"), ("RU", "RUS"), ("RW", "RWA"), ("KN", "KNA"), 
    ("LC", "LCA"), ("VC", "VCT"), ("WS", "WSM"), ("SM", "SMR"), ("ST", 
    "STP"), ("SA", "SAU"), ("SN", "SEN"), ("RS", "SRB"), ("SC", "SYC"), 
    ("SL", "SLE"), ("SG", "SGP"), ("SK", "SVK"), ("SI", "SVN"), ("SB", 
    "SLB"), ("SO", "SOM"), ("ZA", "ZAF"), ("SS", "SSD"), ("ES", "ESP"), 
    ("LK", "LKA"), ("SD", "SDN"), ("SR", "SUR"), ("SZ", "SWZ"), ("SE", 
    "SWE"), ("CH", "CHE"), ("SY", "SYR"), ("TW", "TWN"), ("TJ", "TJK"), 
    ("TZ", "TZA"), ("TH", "THA"), ("TL", "TLS"), ("TG", "TGO"), ("TO", 
    "TON"), ("TT", "TTO"), ("TN", "TUN"), ("TR", "TUR"), ("TM", "TKM"), 
    ("TV", "TUV"), ("UG", "UGA"), ("UA", "UKR"), ("AE", "ARE"), ("GB", 
    "GBR"), ("US", "USA"), ("UY", "URY"), ("UZ", "UZB"), ("VU", "VUT"), 
    ("VA", "VAT"), ("VE", "VEN"), ("VN", "VNM"), ("YE", "YEM"), ("ZM", 
    "ZMB"), ("ZW", "ZWE"), ("XK", "XKX"), ("PS", "PSE"), ("HK", "HKG"), 
    ("MO", "MAC") ]

/-- Table `ISO3_TO_ISO2`: the inverse object, derived by
`Object.fromEntries(Object.entries(ISO2_TO_ISO3).map(([a, b]) => [b, a]))`;
with `fromEntries`, a later duplicate key would override an earlier
one, which last-match-wins `lookupObj` models. -/
def ISO3_TO_ISO2 : List (String × String) :=
  ISO2_TO_ISO3.map (fun p => (p.2, p.1))

/-- Table `RAW_NUMERIC_TO_ISO3`: the hand-maintained numeric-string to alpha-3
object literal (the `"-99"` key is absent in the source by design). -/
def RAW_NUMERIC_TO_ISO3 : List (String × String) :=
  [ ("4", "AFG"), ("8", "ALB"), ("12", "DZA"), ("20", "AND"), ("24", 
    "AGO"), ("28", "ATG"), ("32", "ARG"), ("51", "ARM"), ("36", "AUS"), 
    ("40", "AUT"), ("31", "AZE"), ("44", "BHS"), ("48", "BHR"), ("50", 
    "BGD"), ("52", "BRB"), ("112", "BLR"), ("56", "BEL"), ("84", "BLZ"), 
    ("204", "BEN"), ("64", "BTN"), ("68", "BOL"), ("70", "BIH"), ("72", 
    "BWA"), ("76", "BRA"), ("96", "BRN"), ("100", "BGR"), ("854", "BFA"), 
    ("108", "BDI"), ("116", "KHM"), ("120", "CMR"), ("124", "CAN"), ("132", 
    "CPV"), ("140", "CAF"), ("148", "TCD"), ("152", "CHL"), ("156", "CHN"), 
    ("170", "COL"), ("174", "COM"), ("178", "COG"), ("180", "COD"), ("188", 
    "CRI"), ("384", "CIV"), ("191", "HRV"), ("192", "CUB"), ("196", "CYP"), 
    ("203", "CZE"), ("208", "DNK"), ("262", "DJI"), ("212", "DMA"), ("214", 
    "DOM"), ("218", "ECU"), ("818", "EGY"), ("222", "SLV"), ("226", "GNQ"), 
    ("232", "ERI"), ("233", "EST"), ("231", "ETH"), ("242", "FJI"), ("246", 
    "FIN"), ("250", "FRA"), ("266", "GAB"), ("270", "GMB"), ("268", "GEO"), 
    ("276", "DEU"), ("288", "GHA"), ("300", "GRC"), ("308", "GRD"), ("320", 
    "GTM"), ("324", "GIN"), ("624", "GNB"), ("328", "GUY"), ("332", "HTI"), 
    ("340", "HND"), ("348", "HUN"), ("352", "ISL"), ("356", "IND"), ("360", 
    "IDN"), ("364", "IRN"), ("368", "IRQ"), ("372", "IRL"), ("376", "ISR"), 
    ("380", "ITA"), ("388", "JAM"), ("392", "JPN"), ("400", "JOR"), ("398", 
    "KAZ"), ("404", "KEN"), ("296", "KIR"), ("408", "PRK"), ("410", "KOR"), 
    ("414", "KWT"), ("417", "KGZ"), ("418", "LAO"), ("428", "LVA"), ("422", 
    "LBN"), ("426", "LSO"), ("430", "LBR"), ("434", "LBY"), ("438", "LIE"), 
    ("440", "LTU"), ("442", "LUX"), ("807", "MKD"), ("450", "MDG"), ("454", 
    "MWI"), ("458", "MYS"), ("462", "MDV"), ("466", "MLI"), ("470", "MLT"), 
    ("584", "MHL"), ("478", "MRT"), ("480", "MUS"), ("484", "MEX"), ("583", 
    "FSM"), ("498", "MDA"), ("492", "MCO"), ("496", "MNG"), ("499", "MNE"), 
    ("504", "MAR"), ("508", "MOZ"), ("104", "MMR"), ("516", "NAM"), ("520", 
    "NRU"), ("524", "NPL"), ("528", "NLD"), ("554", "NZL"), ("558", "NIC"), 
    ("562", "NER"), ("566", "NGA"), ("578", "NOR"), ("512", "OMN"), ("586", 
    "PAK"), ("585", "PLW"), ("591", "PAN"), ("598", "PNG"), ("600", "PRY"), 
    ("604", "PER"), ("608", "PHL"), ("616", "POL"), ("620", "PRT"), ("634", 
    "QAT"), ("642", "ROU"), ("643", "RUS"), ("646", "RWA"), ("659", "KNA"), 
    ("662", "LCA"), ("670", "VCT"), ("882", "WSM"), ("674", "SMR"), ("678", 
    "STP"), ("682", "SAU"), ("686", "SEN"), ("688", "SRB"), ("690", "SYC"), 
    ("694", "SLE"), ("702", "SGP"), ("703", "SVK"), ("705", "SVN"), ("90", 
    "SLB"), ("706", "SOM"), ("710", "ZAF"), ("728", "SSD"), ("724", "ESP"), 
    ("144", "LKA"), ("736", "SDN"), ("740", "SUR"), ("748", "SWZ"), ("752", 
    "SWE"), ("756", "CHE"), ("760", "SYR"), ("158", "TWN"), ("762", "TJK"), 
    ("834", "TZA"), ("764", "THA"), ("626", "TLS"), ("768", "TGO"), ("776", 
    "TON"), ("780", "TTO"), ("788", "TUN"), ("792", "TUR"), ("795", "TKM"), 
    ("798", "TUV"), ("800", "UGA"), ("804", "UKR"), ("784", "ARE"), ("826", 
    "GBR"), ("840", "USA"), ("858", "URY"), ("860", "UZB"), ("548", "VUT"), 
    ("336", "VAT"), ("862", "VEN"), ("704", "VNM"), ("887", "YEM"), ("894", 
    "ZMB"), ("716", "ZWE"), ("275", "PSE"), ("344", "HKG"), ("446", "MAC") ]

/-- Model of `String.prototype.padStart(3, "0")`: left-pad with zeros to length 3. -/
def padStart3 (s : String) : String :=
  ⟨List.replicate (3 - s.length) '0' ++ s.data⟩

/-- Table `NUMERIC_TO_ISO3`: the raw numeric table with every key zero-padded to
exactly 3 digits. -/
def NUMERIC_TO_ISO3 : List (String × String) :=
  RAW_NUMERIC_TO_ISO3.map (fun p => (padStart3 p.1, p.2))

/-- JavaScript `a || b` on strings/lookups: the left side wins unless it is
falsy (absent or the empty string). -/
def jsOr (a : Option String) (b : String) : String :=
  match a with
  | some s => if s = "" then b else s
  | none => b

/-- The alpha-3 resolution of one geography in the `WorldMap` render path:
`NUMERIC_TO_ISO3[numericId] || geo.properties?.ISO_A3 || numericId`. -/
def resolveGeoIso3 (numericId : String) (isoA3Prop : Option String) : String :=
  jsOr (lookupObj NUMERIC_TO_ISO3 numericId) (jsOr isoA3Prop numericId)

/-! ### Helper lemmas on object lookup and assignment -/

theorem lookupObj_append_single {β : Type} (m : List (String × β))
    (k k' : String) (v : β) :
    lookupObj (m ++ [(k, v)]) k' =
      if k = k' then some v else lookupObj m k' := by
  simp [lookupObj, List.foldl_append]

theorem foldl_lookup_replace {β : Type} (k k' : String) (v : β)
    (hk : k' ≠ k) (m : List (String × β)) (acc : Option β) :
    (m.map (fun p => if p.1 = k then (k, v) else p)).foldl
        (fun acc p => if p.1 = k' then some p.2 else acc) acc =
      m.foldl (fun acc p => if p.1 = k' then some p.2 else acc) acc := by
  induction m generalizing acc with
  | nil => rfl
  | cons p m ih =>
    simp only [List.map_cons, List.foldl_cons]
    have hacc : (if (if p.1 = k then (k, v) else p).1 = k' then
          some (if p.1 = k then (k, v) else p).2 else acc) =
        (if p.1 = k' then some p.2 else acc) := by
      by_cases hp : p.1 = k
      · simp [hp, Ne.symm hk]
      · simp [hp]
    rw [hacc, ih]

theorem foldl_lookup_replace_self {β : Type} (k : String) (v : β)
    (m : List (String × β)) (acc : Option β) :
    (m.map (fun p => if p.1 = k then (k, v) else p)).foldl
        (fun acc p => if p.1 = k then some p.2 else acc) acc =
      if m.any (fun p => p.1 = k) then some v else acc := by
  induction m generalizing acc with
  | nil => rfl
  | cons p m ih =>
    simp only [List.map_cons, List.foldl_cons, List.any_cons]
    by_cases hp : p.1 = k
    · have hacc : (if (if p.1 = k then (k, v) else p).1 = k then
            some (if p.1 = k then (k, v) else p).2 else acc) = some v := by
        simp [hp]
      rw [hacc, ih]
      simp [hp]
    · have hacc : (if (if p.1 = k then (k, v) else p).1 = k then
            some (if p.1 = k then (k, v) else p).2 else acc) = acc := by
        simp [hp]
      rw [hacc, ih]
      simp only [decide_eq_false hp, Bool.false_or]

theorem lookupObj_objSet_ne {β : Type} (m : List (String × β))
    (k k' : String) (v : β) (hk : k' ≠ k) :
    lookupObj (objSet m k v) k' = lookupObj m k' := by
  unfold objSet
  by_cases h : m.any (fun p => p.1 = k)
  · rw [if_pos h]
    exact foldl_lookup_replace k k' v hk m none
  · rw [if_neg h, lookupObj_append_single, if_neg (fun he => hk he.symm)]

theorem lookupObj_objSet_self {β : Type} (m : List (String × β))
    (k : String) (v : β) :
    lookupObj (objSet m k v) k = some v := by
  unfold objSet
  by_cases h : m.any (fun p => p.1 = k)
  · rw [if_pos h]
    unfold lookupObj
    rw [foldl_lookup_replace_self, if_pos h]
  · rw [if_neg h, lookupObj_append_single, if_pos rfl]

/-! ### C1: binary hit/miss at the TTL boundary -/

/-- C1.  For every parsed check-cache store holding an entry with timestamp
`T` under the requested key, `getCachedVisaInfo` returns the entry's data
exactly when `now - T < 24 h` (in ms) and returns `null` otherwise; in
particular it is a hit at `T + TTL - 1` and a miss at `T + TTL + 1`.
Likewise `getCachedVisaMap` returns the singleton entry's data exactly
when `now - T < 7 days`, with the same ±1 ms boundary behaviour.  There
is no partial or soft expiry state: every call returns either the data
or `null`. -/
theorem checkCache_ttl_binary_hit_miss {α μ : Type} (passport dest : String)
    (m : Store α) (entry : CacheEntry α) (now : Int)
    (hm : lookupObj m (cacheKey passport dest) = some entry) :
    (getCachedVisaInfo passport dest (fileWrite m) now = some entry.data ↔
        now - entry.timestamp < TTLcheck) ∧
      (¬ now - entry.timestamp < TTLcheck →
        getCachedVisaInfo passport dest (fileWrite m) now = none) ∧
      getCachedVisaInfo passport dest (fileWrite m)
        (entry.timestamp + TTLcheck - 1) = some entry.data ∧
      getCachedVisaInfo passport dest (fileWrite m)
        (entry.timestamp + TTLcheck + 1) = none ∧
      ∀ (mapEntry : CacheEntry μ) (now' : Int),
        (getCachedVisaMap (fileWrite mapEntry) now' = some mapEntry.data ↔
            now' - mapEntry.timestamp < TTLmap) ∧
          (¬ now' - mapEntry.timestamp < TTLmap →
            getCachedVisaMap (fileWrite mapEntry) now' = none) ∧
          getCachedVisaMap (fileWrite mapEntry)
            (mapEntry.timestamp + TTLmap - 1) = some mapEntry.data ∧
          getCachedVisaMap (fileWrite mapEntry)
            (mapEntry.timestamp + TTLmap + 1) = none := by
  have hinfo : ∀ t : Int, getCachedVisaInfo passport dest (fileWrite m) t =
      if t - entry.timestamp < TTLcheck then some entry.data else none := by
    intro t
    simp [getCachedVisaInfo, fileRead, fileWrite, hm]
  have hmap : ∀ (mapEntry : CacheEntry μ) (t : Int),
      getCachedVisaMap (fileWrite mapEntry) t =
        if t - mapEntry.timestamp < TTLmap then some mapEntry.data
        else none := by
    intro mapEntry t
    simp [getCachedVisaMap, fileRead, fileWrite]
  refine ⟨?_, ?_, ?_, ?_, ?_⟩
  · rw [hinfo]
    constructor
    · intro h
      by_contra hc
      rw [if_neg hc] at h
      exact Option.noConfusion h
    · intro h
      rw [if_pos h]
  · intro h
    rw [hinfo, if_neg h]
  · rw [hinfo, if_pos (by unfold TTLcheck; omega)]
  · rw [hinfo, if_neg (by unfold TTLcheck; omega)]
  · intro mapEntry now'
    refine ⟨?_, ?_, ?_, ?_⟩
    · rw [hmap]
      constructor
      · intro h
        by_contra hc
        rw [if_neg hc] at h
        exact Option.noConfusion h
      · intro h
        rw [if_pos h]
    · intro h
      rw [hmap, if_neg h]
    · rw [hmap, if_pos (by unfold TTLmap; omega)]
    · rw [hmap, if_neg (by unfold TTLmap; omega)]

/-- Witness for C1 at a concrete store: an entry stored for `SA-FR` at
timestamp 0 is still a hit one millisecond before the 24 h TTL
elapses. -/
theorem checkCache_ttl_binary_hit_miss_witness :
    getCachedVisaInfo "SA" "FR"
        (fileWrite [("SA-FR", (⟨7, 0⟩ : CacheEntry Nat))])
        ((0 : Int) + TTLcheck - 1) = some 7 :=
  (checkCache_ttl_binary_hit_miss (μ := Nat) "SA" "FR"
    [("SA-FR", ⟨7, 0⟩)] ⟨7, 0⟩ 0 (by decide)).2.2.1

/-! ### C8: a corrupt persisted artifact is exactly a miss -/

/-- C8.  For every possible content of a persisted cache artifact, the
cache read either returns the parsed value or returns `null` — it is a
total function, so no exception propagates to the caller.  On a store
that fails to parse, `getCachedVisaInfo` behaves exactly as on an
absent store and returns `null`, and so does `getCachedVisaMap`. -/
theorem corrupt_cache_is_miss (α μ : Type) :
    (∀ (file : FileContent (Store α)),
        fileRead file = none ∨
          ∃ v, file = fileWrite v ∧ fileRead file = some v) ∧
      (∀ (passport dest : String) (now : Int),
        getCachedVisaInfo (α := α) passport dest (some (Except.error ())) now =
            getCachedVisaInfo passport dest none now ∧
          getCachedVisaInfo (α := α) passport dest (some (Except.error ()))
            now = none) ∧
      ∀ (now : Int),
        getCachedVisaMap (μ := μ) (some (Except.error ())) now =
            getCachedVisaMap (μ := μ) none now ∧
          getCachedVisaMap (μ := μ) (some (Except.error ())) now = none := by
  refine ⟨?_, ?_, ?_⟩
  · intro file
    match file with
    | none => exact Or.inl rfl
    | some (Except.error ()) => exact Or.inl rfl
    | some (Except.ok v) => exact Or.inr ⟨v, rfl, rfl⟩
  · intro passport dest now
    exact ⟨rfl, by simp [getCachedVisaInfo, fileRead, lookupObj]⟩
  · intro now
    exact ⟨rfl, rfl⟩

/-! ### C10: the check-cache write is local to its key -/

/-- C10.  Provided the persisted check-cache file parses to a store `m`,
`setCachedVisaInfo` writes back exactly `m` with the single uppercased
`passport-dest` key set to the new entry: every other key afterwards
looks up to precisely the entry (data and timestamp) it looked up to
before, and the written key holds the new data with the current
timestamp. -/
theorem setCachedVisaInfo_frame {α : Type} (passport dest k' : String)
    (m : Store α) (data : α) (now : Int)
    (hk : k' ≠ cacheKey passport dest) :
    setCachedVisaInfo passport dest data (fileWrite m) now =
        fileWrite (objSet m (cacheKey passport dest) ⟨data, now⟩) ∧
      lookupObj (objSet m (cacheKey passport dest) ⟨data, now⟩) k' =
        lookupObj m k' ∧
      lookupObj (objSet m (cacheKey passport dest) ⟨data, now⟩)
        (cacheKey passport dest) = some ⟨data, now⟩ :=
  ⟨rfl, lookupObj_objSet_ne m (cacheKey passport dest) k' _ hk,
    lookupObj_objSet_self m (cacheKey passport dest) _⟩

/-- Witness for C10: writing `SA-FR` into a store that also holds a
`SA-DE` entry leaves the `SA-DE` entry bitwise intact. -/
theorem setCachedVisaInfo_frame_witness :
    lookupObj
        (objSet [("SA-DE", (⟨3, 11⟩ : CacheEntry Nat))] (cacheKey "SA" "FR")
          ⟨7, 99⟩) "SA-DE" =
      lookupObj [("SA-DE", (⟨3, 11⟩ : CacheEntry Nat))] "SA-DE" :=
  (setCachedVisaInfo_frame "SA" "FR" "SA-DE" [("SA-DE", ⟨3, 11⟩)] 7 99
    (by decide)).2.1

/-! ### C2: a failed provider call never writes to the cache -/

/-- C2.  Whenever the provider call fails — a non-success HTTP status or a
thrown transport error — neither `getVisaMap` nor the
`GET /api/visa-info/:destinationCode` handler touches its cache file:
the file after the request is the very file before it, whatever it
contained, so any pre-existing entry is left unchanged. -/
theorem no_cache_write_on_failure {α : Type} (apiKey destParam : String)
    (mapFetch : FetchOutcome VisaMapData) (infoFetch : FetchOutcome α)
    (mapFile : FileContent (CacheEntry VisaMapData))
    (infoFile : FileContent (Store α)) (now : Int)
    (hmap : mapFetch.isFailure = true)
    (hinfo : infoFetch.isFailure = true) :
    (getVisaMap apiKey mapFetch mapFile now).file = mapFile ∧
      (visaInfoHandler destParam apiKey infoFetch infoFile now).file =
        infoFile := by
  constructor
  · unfold getVisaMap
    match hc : getCachedVisaMap mapFile now with
    | some cached => rfl
    | none =>
      by_cases hkey : apiKey = ""
      · simp [hkey]
      · match mapFetch, hmap with
        | .httpError status, _ => simp [hkey]
        | .transportError, _ => simp [hkey]
  · unfold visaInfoHandler
    cases hc : getCachedVisaInfo PASSPORT_COUNTRY (toUpperStr destParam)
        infoFile now with
    | some cached => simp [hc]
    | none =>
      by_cases hkey : apiKey = ""
      · simp [hc, hkey]
      · match infoFetch, hinfo with
        | .httpError status, _ => simp [hc, hkey]
        | .transportError, _ => simp [hc, hkey]

/-- Witness for C2: a 500 from the provider leaves both a populated map
cache file and a populated check cache file exactly as they were. -/
theorem no_cache_write_on_failure_witness :
    (getVisaMap "key" (.httpError 500)
          (fileWrite (⟨⟨[]⟩, 3⟩ : CacheEntry VisaMapData)) 99999999999).file =
        fileWrite (⟨⟨[]⟩, 3⟩ : CacheEntry VisaMapData) ∧
      (visaInfoHandler "fr" "key" (.httpError 500 : FetchOutcome Nat)
          (fileWrite [("SA-DE", ⟨3, 11⟩)]) 99999999999).file =
        fileWrite [("SA-DE", ⟨3, 11⟩)] :=
  no_cache_write_on_failure "key" "fr" (.httpError 500) (.httpError 500)
    (fileWrite ⟨⟨[]⟩, 3⟩) (fileWrite [("SA-DE", ⟨3, 11⟩)]) 99999999999
    rfl rfl

/-! ### C7: configuration errors are distinct from upstream errors -/

/-- C7.  A missing API key is detected without issuing any network call
and surfaced distinctly from an upstream failure in both provider-facing
operations.  `getVisaMap` with an empty key performs no fetch and logs
exactly "[VisaMap] No API key", a message never emitted on an upstream
failure (which does fetch); the visa-info handler with an empty key
performs no fetch and answers the distinguished body
"API key not configured", while an upstream failure fetches and answers
a different body. -/
theorem config_error_distinct_from_upstream {α : Type}
    (destParam apiKey : String) (mapFetch : FetchOutcome VisaMapData)
    (infoFetch : FetchOutcome α)
    (mapFile : FileContent (CacheEntry VisaMapData))
    (infoFile : FileContent (Store α)) (now : Int)
    (hmiss : getCachedVisaMap mapFile now = none)
    (hmiss' : getCachedVisaInfo PASSPORT_COUNTRY (toUpperStr destParam)
        infoFile now = none)
    (hkey : apiKey ≠ "") (hfail : mapFetch.isFailure = true)
    (hfail' : infoFetch.isFailure = true) :
    ((getVisaMap "" mapFetch mapFile now).networkCalled = false ∧
        (getVisaMap "" mapFetch mapFile now).log = ["[VisaMap] No API key"]) ∧
      ((getVisaMap apiKey mapFetch mapFile now).networkCalled = true ∧
        "[VisaMap] No API key" ∉ (getVisaMap apiKey mapFetch mapFile now).log) ∧
      ((visaInfoHandler destParam "" infoFetch infoFile now).networkCalled =
          false ∧
        (visaInfoHandler destParam "" infoFetch infoFile now).response.body =
          Except.error "API key not configured") ∧
      (visaInfoHandler destParam apiKey infoFetch infoFile now).networkCalled =
          true ∧
        (visaInfoHandler destParam apiKey infoFetch infoFile
            now).response.body ≠ Except.error "API key not configured" := by
  have hlogne : ∀ s : String,
      "[VisaMap] Error " ++ s ≠ "[VisaMap] No API key" := by
    intro s h
    have hd := congrArg String.data h
    rw [String.data_append] at hd
    have h10 : ("[VisaMap] Error ".data ++ s.data)[10]? =
        ("[VisaMap] No API key".data)[10]? := by rw [hd]
    rw [List.getElem?_append_left (by decide)] at h10
    exact absurd h10 (by decide)
  refine ⟨⟨?_, ?_⟩, ⟨?_, ?_⟩, ⟨?_, ?_⟩, ?_, ?_⟩
  · simp [getVisaMap, hmiss]
  · simp [getVisaMap, hmiss]
  · cases mapFetch <;> simp [getVisaMap, hmiss, hkey]
  · cases mapFetch with
    | ok data => simp [getVisaMap, hmiss, hkey]
    | httpError status =>
        simp [getVisaMap, hmiss, hkey,
          Ne.symm (hlogne (toString status))]
    | transportError => simp [getVisaMap, hmiss, hkey]
  · simp [visaInfoHandler, hmiss']
  · simp [visaInfoHandler, hmiss']
  · cases infoFetch <;> simp [visaInfoHandler, hmiss', hkey]
  · cases infoFetch with
    | ok data => simp [visaInfoHandler, hmiss', hkey]
    | httpError status => simp [visaInfoHandler, hmiss', hkey]
    | transportError => simp [visaInfoHandler, hmiss', hkey]

/-- Witness for C7 at a concrete request: empty map cache, empty check
cache, destination `fr`, upstream answering 503. -/
theorem config_error_distinct_from_upstream_witness :
    ((getVisaMap "" (.httpError 503) none 0).networkCalled = false ∧
        (getVisaMap "" (.httpError 503) none 0).log =
          ["[VisaMap] No API key"]) ∧
      ((getVisaMap "key" (.httpError 503) none 0).networkCalled = true ∧
        "[VisaMap] No API key" ∉ (getVisaMap "key" (.httpError 503) none 0).log) ∧
      ((visaInfoHandler "fr" "" (.httpError 503 : FetchOutcome Nat) none
            0).networkCalled = false ∧
        (visaInfoHandler "fr" "" (.httpError 503 : FetchOutcome Nat) none
            0).response.body = Except.error "API key not configured") ∧
      (visaInfoHandler "fr" "key" (.httpError 503 : FetchOutcome Nat) none
          0).networkCalled = true ∧
        (visaInfoHandler "fr" "key" (.httpError 503 : FetchOutcome Nat) none
            0).response.body ≠ Except.error "API key not configured" :=
  config_error_distinct_from_upstream "fr" "key" (.httpError 503)
    (.httpError 503) none none 0 rfl rfl (by decide) rfl rfl

/-! ### C9: GET /api/countries falls back to the non-empty mock list -/

/-- C9.  Whenever `getVisaMap` yields no usable visa-map data — no valid
cache entry and the provider unreachable or the API key missing —
`GET /api/countries` still answers status 200 with the static mock
country list, which is non-empty: never an error status and never an
empty array. -/
theorem countries_fallback_nonempty
    (getNameEn getNameAr : CodeStr → Option CodeStr)
    (le : Country → Country → Bool) (apiKey : String)
    (fetch : FetchOutcome VisaMapData)
    (file : FileContent (CacheEntry VisaMapData)) (now : Int)
    (h : (getVisaMap apiKey fetch file now).result = none) :
    countriesHandler getNameEn getNameAr le apiKey fetch file now =
        ⟨200, Except.ok mockCountries⟩ ∧
      mockCountries ≠ [] := by
  constructor
  · unfold countriesHandler
    rw [h]
  · simp [mockCountries]

/-- Witness for C9: no cache file, no API key, provider down — the
response is 200 with the full mock list. -/
theorem countries_fallback_nonempty_witness :
    countriesHandler (fun _ => none) (fun _ => none) (fun _ _ => true) ""
          FetchOutcome.transportError none 0 =
        ⟨200, Except.ok mockCountries⟩ ∧
      mockCountries ≠ [] :=
  countries_fallback_nonempty (fun _ => none) (fun _ => none)
    (fun _ _ => true) "" FetchOutcome.transportError none 0 rfl

/-! ### Characterising membership in `buildCountries` -/

theorem mem_buildBucket_iff (getNameEn getNameAr : CodeStr → Option CodeStr)
    (color : String) (codes : CodeStr) (c : Country) :
    c ∈ buildBucket getNameEn getNameAr color codes ↔
      codes ≠ [] ∧ ∃ code ∈ splitComma codes,
        toUpperS (trimS code) ∉ EXCLUDED ∧
          c = bucketEntry getNameEn getNameAr color (toUpperS (trimS code)) := by
  unfold buildBucket
  by_cases hc : codes = []
  · simp [hc]
  · rw [if_neg hc]
    simp only [List.mem_filterMap, hc, ne_eq, not_false_eq_true, true_and]
    constructor
    · rintro ⟨code, hmem, hsome⟩
      by_cases hex : toUpperS (trimS code) ∈ EXCLUDED
      · rw [if_pos hex] at hsome
        exact Option.noConfusion hsome
      · rw [if_neg hex] at hsome
        exact ⟨code, hmem, hex, (Option.some.injEq _ _ ▸ hsome).symm⟩
    · rintro ⟨code, hmem, hex, hc⟩
      exact ⟨code, hmem, by rw [if_neg hex, hc]⟩

theorem mem_buildCountries_iff (getNameEn getNameAr : CodeStr → Option CodeStr)
    (le : Country → Country → Bool) (visaMap : VisaMapData) (c : Country) :
    c ∈ buildCountries getNameEn getNameAr le visaMap ↔
      ∃ color codes, (color, codes) ∈ visaMap.colors ∧ codes ≠ [] ∧
        ∃ code ∈ splitComma codes,
          toUpperS (trimS code) ∉ EXCLUDED ∧
            c = bucketEntry getNameEn getNameAr color
              (toUpperS (trimS code)) := by
  unfold buildCountries
  rw [List.mem_mergeSort, List.mem_flatMap]
  constructor
  · rintro ⟨⟨color, codes⟩, hmem, hc⟩
    rw [mem_buildBucket_iff] at hc
    exact ⟨color, codes, hmem, hc.1, hc.2⟩
  · rintro ⟨color, codes, hmem, hne, hrest⟩
    exact ⟨(color, codes), hmem, (mem_buildBucket_iff _ _ _ _ _).mpr
      ⟨hne, hrest⟩⟩

/-! ### C3: the color table and its conservative default -/

/-- C3.  Every country produced by `buildCountries` was built from some
bucket `(color, codes)` of the visa map — one of whose comma fields,
trimmed and uppercased, is the very code the entry records — and its
`visaStatus` is exactly the image of that same bucket's color under
`COLOR_STATUS` with `visa_required` as default; the table maps green to
`visa_free`, blue and yellow to `e_visa`, red to `visa_required`; and
every color outside the table yields `visa_required`, which is not a
free-travel status. -/
theorem color_mapping_conservative
    (getNameEn getNameAr : CodeStr → Option CodeStr)
    (le : Country → Country → Bool) (visaMap : VisaMapData) :
    (∀ c ∈ buildCountries getNameEn getNameAr le visaMap,
        ∃ color codes, (color, codes) ∈ visaMap.colors ∧
          (∃ code ∈ splitComma codes,
            toUpperS (trimS code) ∉ EXCLUDED ∧
              c = bucketEntry getNameEn getNameAr color
                (toUpperS (trimS code))) ∧
          c.visaStatus = (COLOR_STATUS color).getD .visa_required) ∧
      COLOR_STATUS "green" = some .visa_free ∧
      COLOR_STATUS "blue" = some .e_visa ∧
      COLOR_STATUS "yellow" = some .e_visa ∧
      COLOR_STATUS "red" = some .visa_required ∧
      (∀ color : String,
        color ∉ (["green", "blue", "yellow", "red"] : List String) →
          (COLOR_STATUS color).getD .visa_required = .visa_required) ∧
      VisaStatus.visa_required ≠ .visa_free ∧
      VisaStatus.visa_required ≠ .e_visa := by
  refine ⟨?_, rfl, rfl, rfl, rfl, ?_, by decide, by decide⟩
  · intro c hc
    rw [mem_buildCountries_iff] at hc
    obtain ⟨color, codes, hmem, _, code, hcode, hex, hc⟩ := hc
    exact ⟨color, codes, hmem, ⟨code, hcode, hex, hc⟩, by rw [hc]; rfl⟩
  · intro color h
    have h1 : color ≠ "green" := fun hh => h (by rw [hh]; simp)
    have h2 : color ≠ "blue" := fun hh => h (by rw [hh]; simp)
    have h3 : color ≠ "yellow" := fun hh => h (by rw [hh]; simp)
    have h4 : color ≠ "red" := fun hh => h (by rw [hh]; simp)
    simp [COLOR_STATUS, h1, h2, h3, h4]

/-- Witness for C3: the entry built for `FR` sitting in an unrecognized
`purple` bucket comes from that bucket and classifies as
`visa_required`. -/
theorem color_mapping_conservative_witness :
    ∃ color codes,
      (color, codes) ∈ (⟨[("purple", strCodes "FR")]⟩ : VisaMapData).colors ∧
        (∃ code ∈ splitComma codes,
          toUpperS (trimS code) ∉ EXCLUDED ∧
            bucketEntry (fun _ => none) (fun _ => none) "purple"
                (strCodes "FR") =
              bucketEntry (fun _ => none) (fun _ => none) color
                (toUpperS (trimS code))) ∧
        (bucketEntry (fun _ => none) (fun _ => none) "purple"
            (strCodes "FR")).visaStatus =
          (COLOR_STATUS color).getD .visa_required :=
  (color_mapping_conservative (fun _ => none) (fun _ => none)
      (fun _ _ => true) ⟨[("purple", strCodes "FR")]⟩).1
    (bucketEntry (fun _ => none) (fun _ => none) "purple" (strCodes "FR"))
    (by
      rw [mem_buildCountries_iff]
      exact ⟨"purple", strCodes "FR", List.mem_singleton.mpr rfl, by decide,
        strCodes "FR", List.mem_singleton.mpr rfl, by decide, rfl⟩)

/-! ### C4: the home country and the policy-excluded destination never
appear -/

theorem lowC_upC_lower (d m : Nat) (h97 : 97 ≤ m) (h122 : m ≤ 122)
    (h : lowC (upC d) = m) : upC d = m - 32 := by
  unfold upC lowC at h
  unfold upC
  split_ifs at h ⊢ <;> omega

theorem toUpperS_of_toLowerS_pair (w : CodeStr) (a b : Nat)
    (ha : 97 ≤ a ∧ a ≤ 122) (hb : 97 ≤ b ∧ b ≤ 122)
    (h : toLowerS (toUpperS w) = [a, b]) :
    toUpperS w = [a - 32, b - 32] := by
  unfold toLowerS toUpperS at h
  unfold toUpperS
  rw [List.map_map] at h
  match w with
  | [] => simp at h
  | [d] => simp at h
  | d1 :: d2 :: rest =>
    simp only [List.map_cons, Function.comp_apply, List.cons.injEq] at h
    obtain ⟨h1, h2, h3⟩ := h
    have hrest : rest = [] := List.map_eq_nil_iff.mp h3
    rw [hrest]
    simp only [List.map_cons, List.map_nil, List.cons.injEq, and_true]
    exact ⟨lowC_upC_lower d1 a ha.1 ha.2 h1, lowC_upC_lower d2 b hb.1 hb.2 h2⟩

/-- C4.  No entry of any `buildCountries` result has the home country's
own lowercase id `sa`, and none has the policy-excluded id `il` — for
every visa-map input, whatever color buckets the codes sit in and
whatever case or surrounding whitespace they carry in the
comma-separated strings. -/
theorem exclusion_invariants (getNameEn getNameAr : CodeStr → Option CodeStr)
    (le : Country → Country → Bool) (visaMap : VisaMapData) :
    ∀ c ∈ buildCountries getNameEn getNameAr le visaMap,
      c.id ≠ strCodes "sa" ∧ c.id ≠ strCodes "il" := by
  intro c hc
  rw [mem_buildCountries_iff] at hc
  obtain ⟨color, codes, _, _, code, _, hex, hc⟩ := hc
  have hid : c.id = toLowerS (toUpperS (trimS code)) := by rw [hc]; rfl
  constructor
  · intro hsa
    rw [hid] at hsa
    have : toUpperS (trimS code) = [115 - 32, 97 - 32] :=
      toUpperS_of_toLowerS_pair (trimS code) 115 97 (by omega) (by omega) hsa
    exact hex (by rw [this]; exact List.mem_cons_self _ _)
  · intro hil
    rw [hid] at hil
    have : toUpperS (trimS code) = [105 - 32, 108 - 32] :=
      toUpperS_of_toLowerS_pair (trimS code) 105 108 (by omega) (by omega) hil
    exact hex (by
      rw [this]
      exact List.mem_cons_of_mem _ (List.mem_cons_self _ _))

/-- Witness for C4: with ` sa ,IL,fr` all in the green bucket, the entry
built for `fr` has neither id `sa` nor id `il` (and indeed the excluded
codes produce no entry at all). -/
theorem exclusion_invariants_witness :
    (bucketEntry (fun _ => none) (fun _ => none) "green"
          (strCodes "FR")).id ≠ strCodes "sa" ∧
      (bucketEntry (fun _ => none) (fun _ => none) "green"
          (strCodes "FR")).id ≠ strCodes "il" :=
  exclusion_invariants (fun _ => none) (fun _ => none) (fun _ _ => true)
    ⟨[("green", strCodes " sa ,IL,fr")]⟩
    (bucketEntry (fun _ => none) (fun _ => none) "green" (strCodes "FR"))
    (by
      rw [mem_buildCountries_iff]
      refine ⟨"green", strCodes " sa ,IL,fr", List.mem_singleton.mpr rfl,
        by decide, strCodes "fr", ?_, by decide, by decide⟩
      show strCodes "fr" ∈ splitComma (strCodes " sa ,IL,fr")
      decide)

/-! ### C5: the alpha-2/alpha-3 translation round-trips -/

theorem foldl_lookup_acc {β : Type} (k : String) (l : List (String × β)) :
    ∀ acc : Option β,
      l.foldl (fun acc p => if p.1 = k then some p.2 else acc) acc =
        match lookupObj l k with
        | some v => some v
        | none => acc := by
  induction l with
  | nil => intro acc; rfl
  | cons p t ih =>
    intro acc
    simp only [List.foldl_cons]
    rw [ih]
    have hcons : lookupObj (p :: t) k =
        match lookupObj t k with
        | some v => some v
        | none => if p.1 = k then some p.2 else none := by
      show t.foldl _ (if p.1 = k then some p.2 else none) = _
      rw [ih]
    rw [hcons]
    cases lookupObj t k with
    | some v => rfl
    | none => by_cases hp : p.1 = k <;> simp [hp]

theorem lookupObj_cons {β : Type} (p : String × β) (t : List (String × β))
    (k : String) :
    lookupObj (p :: t) k =
      match lookupObj t k with
      | some v => some v
      | none => if p.1 = k then some p.2 else none := by
  show t.foldl _ (if p.1 = k then some p.2 else none) = _
  rw [foldl_lookup_acc]

theorem lookupObj_eq_none_of_not_mem_keys {β : Type}
    (l : List (String × β)) (k : String) (h : k ∉ l.map Prod.fst) :
    lookupObj l k = none := by
  induction l with
  | nil => rfl
  | cons p t ih =>
    simp only [List.map_cons, List.mem_cons, not_or] at h
    rw [lookupObj_cons, ih h.2]
    show (if p.1 = k then some p.2 else none) = none
    exact if_neg (fun he => h.1 he.symm)

theorem lookupObj_of_nodup_keys {β : Type} (l : List (String × β))
    (h : (l.map Prod.fst).Nodup) :
    ∀ p ∈ l, lookupObj l p.1 = some p.2 := by
  induction l with
  | nil => intro p hp; cases hp
  | cons q t ih =>
    intro p hp
    rw [List.map_cons, List.nodup_cons] at h
    rcases List.mem_cons.mp hp with rfl | hpt
    · rw [lookupObj_cons, lookupObj_eq_none_of_not_mem_keys t p.1 h.1]
      show (if p.1 = p.1 then some p.2 else none) = some p.2
      exact if_pos rfl
    · rw [lookupObj_cons, ih h.2 p hpt]

theorem snd_inj_of_nodup_map_snd {β γ : Type} (l : List (β × γ))
    (h : (l.map Prod.snd).Nodup) :
    ∀ p ∈ l, ∀ q ∈ l, p.2 = q.2 → p.1 = q.1 := by
  induction l with
  | nil => intro p hp; cases hp
  | cons r t ih =>
    intro p hp q hq hpq
    rw [List.map_cons, List.nodup_cons] at h
    rcases List.mem_cons.mp hp with rfl | hpt <;>
      rcases List.mem_cons.mp hq with heq | hqt
    · rw [heq]
    · exact absurd (hpq ▸ List.mem_map_of_mem Prod.snd hqt) h.1
    · exact absurd (hpq ▸ List.mem_map_of_mem Prod.snd hpt)
        (by rw [← heq] at h; exact h.1)
    · exact ih h.2 p hpt q hqt hpq

set_option maxHeartbeats 1600000 in
/-- C5.  For every alpha-2 key of the hand-maintained `ISO2_TO_ISO3`
object, translating alpha-2 to alpha-3 and back through the derived
`ISO3_TO_ISO2` object yields the key again, and the table is injective:
no two alpha-2 keys map to the same alpha-3 value, so the inversion by
`Object.fromEntries` loses nothing. -/
theorem iso2_iso3_round_trip :
    (∀ p ∈ ISO2_TO_ISO3,
        (lookupObj ISO2_TO_ISO3 p.1).bind (lookupObj ISO3_TO_ISO2) =
          some p.1) ∧
      ∀ p ∈ ISO2_TO_ISO3, ∀ q ∈ ISO2_TO_ISO3, p.2 = q.2 → p.1 = q.1 := by
  have hkeys : (ISO2_TO_ISO3.map Prod.fst).Nodup := by decide
  have hvals : (ISO2_TO_ISO3.map Prod.snd).Nodup := by decide
  have hkeys2 : (ISO3_TO_ISO2.map Prod.fst).Nodup := by
    unfold ISO3_TO_ISO2
    rw [List.map_map]
    exact hvals
  constructor
  · intro p hp
    rw [lookupObj_of_nodup_keys _ hkeys p hp, Option.some_bind]
    have hmem : (p.2, p.1) ∈ ISO3_TO_ISO2 :=
      List.mem_map_of_mem (fun p => (p.2, p.1)) hp
    exact lookupObj_of_nodup_keys _ hkeys2 (p.2, p.1) hmem
  · exact snd_inj_of_nodup_map_snd ISO2_TO_ISO3 hvals

/-! ### C6: numeric keys are zero-padded to three digits -/

/-- C6.  The numeric key `"4"` normalizes by `padStart(3, "0")` to
`"004"`, under which `NUMERIC_TO_ISO3` holds `"AFG"`; every key of
`NUMERIC_TO_ISO3` is exactly 3 characters long; normalization is
idempotent, so the unpadded and the padded spelling of the same number
normalize to the same key and hence resolve identically; and in the
`WorldMap` render path the table is the primary source — `"004"`
resolves to `"AFG"` even against a conflicting `ISO_A3` property, and
the `ISO_A3` fallback is consulted only when the numeric lookup
fails. -/
theorem numeric_key_padding :
    padStart3 "4" = "004" ∧
      lookupObj NUMERIC_TO_ISO3 (padStart3 "4") = some "AFG" ∧
      lookupObj NUMERIC_TO_ISO3 "004" = some "AFG" ∧
      (∀ p ∈ NUMERIC_TO_ISO3, p.1.length = 3) ∧
      (∀ s : String, padStart3 (padStart3 s) = padStart3 s) ∧
      resolveGeoIso3 "004" (some "XYZ") = "AFG" ∧
      resolveGeoIso3 "004" none = "AFG" ∧
      ∀ (numericId : String) (isoA3Prop : Option String),
        lookupObj NUMERIC_TO_ISO3 numericId = none →
          resolveGeoIso3 numericId isoA3Prop = jsOr isoA3Prop numericId := by
  refine ⟨by decide, by decide, by decide, by decide, ?_, by decide,
    by decide, ?_⟩
  · intro s
    obtain ⟨data⟩ := s
    unfold padStart3
    simp only [String.length_mk, List.length_append, List.length_replicate]
    rw [show 3 - (3 - data.length + data.length) = 0 by omega]
    rfl
  · intro numericId isoA3Prop h
    unfold resolveGeoIso3
    rw [h]
    rfl

/-- Witness for C6: the key `"999"` is absent from the numeric table, so
the resolution for it falls back to the `ISO_A3` property. -/
theorem numeric_key_padding_witness :
    resolveGeoIso3 "999" (some "ZZZ") = jsOr (some "ZZZ") "999" :=
  numeric_key_padding.2.2.2.2.2.2.2 "999" (some "ZZZ") (by decide)

end AbsherVisa
